import Mathlib

/-!
Verification of the ScreenClip compositing engine and free-tier bookkeeping.

The definitions below are a shallow embedding of `src/utils/canvas.ts`,
`src/utils/freebie.ts` and the fill-preset handlers of
`src/components/ScreenshotEditor.tsx`.  Geometry is carried out over `ℚ`
(JS numbers on these code paths are exact small rationals); the canvas
drawing context is modelled as the ordered list of drawing operations the
code issues; `localStorage` is modelled as an explicit `Store` record.
-/

namespace ScreenClip

/-- A size in pixels, as in `frameSize: {width, height}`. -/
structure Size where
  width : ℚ
  height : ℚ
deriving DecidableEq, Repr

/-- A rectangle in pixels, as in `screen: {x, y, width, height}`. -/
structure Rect where
  x : ℚ
  y : ℚ
  width : ℚ
  height : ℚ
deriving DecidableEq, Repr

/-- `ImageTransform` from `canvas.ts`: `{scale, x, y}`. -/
structure ImageTransform where
  scale : ℚ
  x : ℚ
  y : ℚ
deriving DecidableEq, Repr

/-- `DeviceFrameTemplate` from `canvas.ts`: the JSON sidecar descriptor. -/
structure DeviceFrameTemplate where
  screen : Rect
  frameSize : Size
deriving DecidableEq, Repr

/-- A loaded device frame: the decoded bitmap (identified by an abstract
tag) together with its descriptor; the value cached in `deviceFrameCache`. -/
structure DeviceFrame where
  tag : ℕ
  template : DeviceFrameTemplate
deriving DecidableEq, Repr

/-- Phone orientation, `template.config.orientation`. -/
inductive Orient
  | portrait
  | landscape
deriving DecidableEq, Repr

/-- The device kinds dispatched on in `applyTemplate`
(`template.config.device`); anything that is not phone/ipad/macbook falls
into the browser-window branch. -/
inductive DeviceKind
  | phone (o : Orient)
  | ipad
  | macbook
  | browser
deriving DecidableEq, Repr

/-- `Template` from `canvas.ts`, with the stringly-typed
`type`/`config` pair turned into a tagged union. -/
inductive Template
  | gradient (colors : List String) (angle : ℚ)
  | solid (color : String)
  | device (d : DeviceKind)
deriving DecidableEq, Repr

/-- The background specification `drawBackground` paints: user gradient,
user solid, or the built-in default device gradient. -/
inductive BgSpec
  | gradient (colors : List String) (angle : ℚ)
  | solid (color : String)
  | deviceDefault
deriving DecidableEq, Repr

/-- `drawBackground` selects the fill from the template's type. -/
def bgSpecOf : Template → BgSpec
  | .gradient colors angle => .gradient colors angle
  | .solid color => .solid color
  | .device _ => .deviceDefault

/-- One watermark drawing operation issued by `addWatermark`. -/
inductive WatermarkOp
  | branding (x y : ℚ)
  | customStroke (text : String) (x y : ℚ)
  | customFill (text : String) (x y : ℚ)
deriving DecidableEq, Repr

/-- JavaScript's `String.prototype.trim`: strip leading and trailing
whitespace (kernel-computable embedding over the character list). -/
def jsTrim (s : String) : String :=
  ⟨((s.data.dropWhile Char.isWhitespace).reverse.dropWhile Char.isWhitespace).reverse⟩

/-- `addWatermark` from `canvas.ts`, as the list of text-drawing
operations it performs on a `canvasW × canvasH` canvas.  The branding
stamp is drawn (bottom-right) exactly when `isPaid` is false; the custom
text is stroked then filled (bottom-center) exactly when it is non-empty
and non-blank; branding comes first in program order. -/
def addWatermark (canvasW canvasH : ℚ) (customText : String) (isPaid : Bool) :
    List WatermarkOp :=
  (if isPaid then [] else [.branding (canvasW - 30) (canvasH - 30)]) ++
  (if customText ≠ "" ∧ jsTrim customText ≠ "" then
    [.customStroke customText (canvasW / 2) (canvasH - 30),
     .customFill customText (canvasW / 2) (canvasH - 30)]
  else [])

/-- The draw rectangle computed by `drawImageInPhoneReal`,
`drawImageInDeviceScreen`, `drawImageInPhone` and the inline
macbook/browser/ipad-fallback code: fit scale `min(sw/iw, sh/ih)`, final
scale `base * transform.scale`, centered on the screen center plus the
transform offset. -/
def placeImage (screen : Rect) (image : Size) (t : ImageTransform) : Rect :=
  let baseScale := min (screen.width / image.width) (screen.height / image.height)
  let finalScale := baseScale * t.scale
  let scaledWidth := image.width * finalScale
  let scaledHeight := image.height * finalScale
  { x := screen.x + screen.width / 2 + t.x - scaledWidth / 2
    y := screen.y + screen.height / 2 + t.y - scaledHeight / 2
    width := scaledWidth
    height := scaledHeight }

/-- The landscape-phone screen-rectangle rotation of `applyTemplate`
(lines 145-148): the portrait descriptor rectangle `r` inside frame
`frame`, mapped into the rotated canvas of size `W × H`
(`x' = sy/fh·W`, `y' = (fw-sx-sw)/fw·H`, `w' = sh/fh·W`, `h' = sw/fw·H`). -/
def rotateScreenRect90 (r : Rect) (frame : Size) (W H : ℚ) : Rect :=
  { x := (r.y / frame.height) * W
    y := ((frame.width - r.x - r.width) / frame.width) * H
    width := (r.height / frame.height) * W
    height := (r.width / frame.width) * H }

/-- The −90° inverse of `rotateScreenRect90`: a rectangle `r` inside the
rotated canvas `rotCanvas`, mapped back into the original `fw × fh`
frame.  Obtained by solving the forward equations; it is the same
formula family applied in the opposite rotation direction. -/
def rotateScreenRect90Inv (r : Rect) (rotCanvas : Size) (fw fh : ℚ) : Rect :=
  { x := ((rotCanvas.height - r.y - r.height) / rotCanvas.height) * fw
    y := (r.x / rotCanvas.width) * fh
    width := (r.height / rotCanvas.height) * fw
    height := (r.width / rotCanvas.width) * fh }

/-- The module-level `deviceFrameCache`, keyed by asset path. -/
def Cache : Type := String → Option DeviceFrame

/-- The asset environment: what `fetch`+decode would yield for each asset
path (`none` models a failed fetch or decode). -/
def Fetch : Type := String → Option DeviceFrame

/-- `loadDeviceFrame` from `canvas.ts`: returns the cached entry when
present; otherwise consults the environment, caching a successful load
and returning the `null` sentinel (here `none`) on failure. -/
def loadDeviceFrame (fetch : Fetch) (cache : Cache) (path : String) :
    Option DeviceFrame × Cache :=
  match cache path with
  | some f => (some f, cache)
  | none =>
    match fetch path with
    | some f => (some f, fun p => if p = path then some f else cache p)
    | none => (none, cache)

/-- One drawing operation of the compositing pipeline, in issue order. -/
inductive DrawOp
  | background (bg : BgSpec) (w h : ℚ)
  | screenImage (screen : Rect) (cornerRadius : ℚ) (fill : String) (drawRect : Rect)
  | frameBitmap (tag : ℕ) (r : Rect)
  | frameBitmapRotated (tag : ℕ) (cx cy w h : ℚ)
  | phoneFrame (cx cy w h : ℚ) (o : Orient)
  | macbookFrame (cx cy w h : ℚ)
  | browserFrame (x y w h : ℚ)
  | ipadFallback (r : Rect) (drawRect : Rect)
  | flatImage (r : Rect)
  | stamp (op : WatermarkOp)
deriving DecidableEq, Repr

/-- The result of one composite: canvas size, the
`config._realScreenDimensions` side channel written back for the Fill
buttons, and the ordered drawing operations. -/
structure RenderOutput where
  canvas : Size
  realScreenDimensions : Option Size
  ops : List DrawOp
deriving DecidableEq, Repr

/-- `padding` in `applyTemplate`. -/
def padding : ℚ := 100

/-- Asset path of the phone frame bitmap. -/
def iphoneFramePath : String := "/device-frames/iphone-16-pro-max-black.png"

/-- Asset path of the tablet frame bitmap. -/
def ipadFramePath : String := "/device-frames/ipad-pro-13-landscape-silver.png"

/-- The body of `applyTemplate` before the final `addWatermark` call:
canvas sizing, screen-rectangle resolution (including the
`_realScreenDimensions` write-back), and the drawing operations of each
template branch, with the loader's cache threaded through. -/
def applyTemplateCore (image : Size) (template : Template)
    (t : ImageTransform) (fetch : Fetch) (cache : Cache) :
    RenderOutput × Cache :=
  match template with
  | .device (.phone o) =>
    let df := (loadDeviceFrame fetch cache iphoneFramePath).1
    let cache2 := (loadDeviceFrame fetch cache iphoneFramePath).2
    match df, o with
    | some f, .portrait =>
      let displayScale : ℚ := 22 / 100
      let canvasWidth := f.template.frameSize.width * displayScale
      let canvasHeight := f.template.frameSize.height * displayScale
      let cw := canvasWidth + padding * 2
      let ch := canvasHeight + padding * 2
      let screen : Rect :=
        { x := padding + f.template.screen.x * displayScale
          y := padding + f.template.screen.y * displayScale
          width := f.template.screen.width * displayScale
          height := f.template.screen.height * displayScale }
      ({ canvas := ⟨cw, ch⟩
         realScreenDimensions := some ⟨screen.width, screen.height⟩
         ops := [.background (bgSpecOf template) cw ch,
                 .screenImage screen 37 "#ffffff" (placeImage screen image t),
                 .frameBitmap f.tag ⟨padding, padding, canvasWidth, canvasHeight⟩] },
       cache2)
    | some f, .landscape =>
      let displayScale : ℚ := 28 / 100
      let canvasWidth := f.template.frameSize.height * displayScale
      let canvasHeight := f.template.frameSize.width * displayScale
      let cw := canvasWidth + padding * 2
      let ch := canvasHeight + padding * 2
      let frameLeft := (cw - canvasWidth) / 2
      let frameTop := (ch - canvasHeight) / 2
      let rotated :=
        rotateScreenRect90 f.template.screen f.template.frameSize canvasWidth canvasHeight
      let screen : Rect :=
        { x := frameLeft + rotated.x
          y := frameTop + rotated.y
          width := rotated.width
          height := rotated.height }
      ({ canvas := ⟨cw, ch⟩
         realScreenDimensions := some ⟨screen.width, screen.height⟩
         ops := [.background (bgSpecOf template) cw ch,
                 .screenImage screen 37 "#ffffff" (placeImage screen image t),
                 .frameBitmapRotated f.tag (cw / 2) (ch / 2)
                   (f.template.frameSize.width * displayScale)
                   (f.template.frameSize.height * displayScale)] },
       cache2)
    | none, o2 =>
      let phoneWidth : ℚ := match o2 with | .portrait => 380 | .landscape => 780
      let phoneHeight : ℚ := match o2 with | .portrait => 780 | .landscape => 380
      let cw := phoneWidth + padding * 2 + 100
      let ch := phoneHeight + padding * 2 + 100
      let screen : Rect :=
        { x := cw / 2 - phoneWidth / 2
          y := ch / 2 - phoneHeight / 2
          width := phoneWidth
          height := phoneHeight }
      ({ canvas := ⟨cw, ch⟩
         realScreenDimensions := some ⟨phoneWidth, phoneHeight⟩
         ops := [.background (bgSpecOf template) cw ch,
                 .phoneFrame (cw / 2) (ch / 2) phoneWidth phoneHeight o2,
                 .screenImage screen 37 "#ffffff" (placeImage screen image t)] },
       cache2)
  | .device .ipad =>
    let df := (loadDeviceFrame fetch cache ipadFramePath).1
    let cache2 := (loadDeviceFrame fetch cache ipadFramePath).2
    match df with
    | some f =>
      let displayScale : ℚ := 35 / 100
      let canvasWidth := f.template.frameSize.width * displayScale
      let canvasHeight := f.template.frameSize.height * displayScale
      let cw := canvasWidth + padding * 2
      let ch := canvasHeight + padding * 2
      let screen : Rect :=
        { x := padding + f.template.screen.x * displayScale
          y := padding + f.template.screen.y * displayScale
          width := f.template.screen.width * displayScale
          height := f.template.screen.height * displayScale }
      ({ canvas := ⟨cw, ch⟩
         realScreenDimensions := some ⟨screen.width, screen.height⟩
         ops := [.background (bgSpecOf template) cw ch,
                 .screenImage screen 40 "#ffffff" (placeImage screen image t),
                 .frameBitmap f.tag ⟨padding, padding, canvasWidth, canvasHeight⟩] },
       cache2)
    | none =>
      let ipadWidth : ℚ := 1024
      let ipadHeight : ℚ := 768
      let cw := ipadWidth + padding * 2
      let ch := ipadHeight + padding * 2
      let screen : Rect := ⟨padding, padding, ipadWidth, ipadHeight⟩
      ({ canvas := ⟨cw, ch⟩
         realScreenDimensions := some ⟨ipadWidth, ipadHeight⟩
         ops := [.background (bgSpecOf template) cw ch,
                 .ipadFallback screen (placeImage screen image t)] },
       cache2)
  | .device .macbook =>
    let macbookScreenW : ℚ := 1280
    let macbookScreenH : ℚ := 800
    let mbBezelTop : ℚ := 28
    let mbBezelSide : ℚ := 14
    let mbBezelBottom : ℚ := 14
    let mbLidW := macbookScreenW + mbBezelSide * 2
    let mbLidH := macbookScreenH + mbBezelTop + mbBezelBottom
    let cw := mbLidW + padding * 2 + 80
    let ch := mbLidH + padding * 2 + 80
    let macCenterX := cw / 2
    let macCenterY := ch / 2
    let macLidX := macCenterX - mbLidW / 2
    let macLidY := macCenterY - mbLidH / 2 - 20
    let screen : Rect :=
      ⟨macLidX + mbBezelSide, macLidY + mbBezelTop, macbookScreenW, macbookScreenH⟩
    ({ canvas := ⟨cw, ch⟩
       realScreenDimensions := some ⟨macbookScreenW, macbookScreenH⟩
       ops := [.background (bgSpecOf template) cw ch,
               .macbookFrame macCenterX macCenterY macbookScreenW macbookScreenH,
               .screenImage screen 2 "#000000" (placeImage screen image t)] },
     cache)
  | .device .browser =>
    let browserWidth : ℚ := 1200
    let browserHeight : ℚ := 675
    let browserTitleBar : ℚ := 40
    let cw := browserWidth + padding * 2
    let ch := browserHeight + browserTitleBar + padding * 2
    let windowX := padding
    let windowY := padding
    let screen : Rect := ⟨windowX, windowY + 40, browserWidth, browserHeight⟩
    ({ canvas := ⟨cw, ch⟩
       realScreenDimensions := some ⟨browserWidth, browserHeight⟩
       ops := [.background (bgSpecOf template) cw ch,
               .browserFrame windowX windowY browserWidth browserHeight,
               .screenImage screen 0 "#000000" (placeImage screen image t)] },
     cache)
  | .gradient colors angle =>
    let scale := min (1600 / image.width) 1
    let scaledWidth := image.width * scale
    let scaledHeight := image.height * scale
    let cw := scaledWidth + padding * 2
    let ch := scaledHeight + padding * 2
    ({ canvas := ⟨cw, ch⟩
       realScreenDimensions := none
       ops := [.background (.gradient colors angle) cw ch,
               .flatImage ⟨padding, padding, scaledWidth, scaledHeight⟩] },
     cache)
  | .solid color =>
    let scale := min (1600 / image.width) 1
    let scaledWidth := image.width * scale
    let scaledHeight := image.height * scale
    let cw := scaledWidth + padding * 2
    let ch := scaledHeight + padding * 2
    ({ canvas := ⟨cw, ch⟩
       realScreenDimensions := none
       ops := [.background (.solid color) cw ch,
               .flatImage ⟨padding, padding, scaledWidth, scaledHeight⟩] },
     cache)

/-- `applyTemplate` from `canvas.ts`: the template branch followed by the
unconditional `addWatermark` call on the finished canvas. -/
def applyTemplate (image : Size) (template : Template) (customWatermark : String)
    (t : ImageTransform) (isPaid : Bool) (fetch : Fetch) (cache : Cache) :
    RenderOutput × Cache :=
  let core := (applyTemplateCore image template t fetch cache).1
  let cache2 := (applyTemplateCore image template t fetch cache).2
  ({ core with
     ops := core.ops ++
       (addWatermark core.canvas.width core.canvas.height customWatermark isPaid).map .stamp },
   cache2)

/-- `handleFillScreen` in `ScreenshotEditor.tsx` ("Fill Screen - image
covers entire screen (no gaps, may crop edges)"): the transform it
applies before forcing a re-render. -/
def handleFillScreenTransform : ImageTransform := ⟨1, 0, 0⟩

/-- `handleFillHorizontal` in `ScreenshotEditor.tsx` ("image touches left
and right edges"): the transform it applies, computed from the screen
dimensions returned by `getScreenDimensions` and the image size. -/
def handleFillHorizontalTransform (screenDims image : Size) : ImageTransform :=
  let coverScale := max (screenDims.width / image.width) (screenDims.height / image.height)
  let widthScale := screenDims.width / image.width
  ⟨widthScale / coverScale, 0, 0⟩

/-- The `localStorage` keys used by `freebie.ts`, as a record.  Usage
counts round-trip through `String(n)`/`parseInt(n, 10)` exactly, so the
`USES` slot is modelled as the parsed integer; a missing slot is `none`. -/
structure Store where
  uses : Option ℤ
  resetDate : Option String
  paid : Option String
  customerId : Option String
deriving DecidableEq, Repr

/-- `isPaidUser` from `freebie.ts` (browser context): the `PAID` slot
holds the string `"true"`. -/
def isPaidUser (s : Store) : Bool := s.paid = some "true"

/-- `FREE_LIMIT` from `freebie.ts`. -/
def FREE_LIMIT : ℤ := 3

/-- `getUsageCount` from `freebie.ts` (browser context), with the current
calendar month string passed explicitly: on a month mismatch it writes
the current month and a zero count and returns 0; otherwise it returns
the stored count (0 when absent) and leaves the store untouched. -/
def getUsageCount (s : Store) (currentMonth : String) : ℤ × Store :=
  if s.resetDate ≠ some currentMonth then
    (0, { s with resetDate := some currentMonth, uses := some 0 })
  else
    (s.uses.getD 0, s)

/-- `hasHitFreeLimit` from `freebie.ts`: paid users short-circuit to
`false` (without touching the store); otherwise the usage count is
compared against `FREE_LIMIT`. -/
def hasHitFreeLimit (s : Store) (currentMonth : String) : Bool × Store :=
  if isPaidUser s then (false, s)
  else
    let r := getUsageCount s currentMonth
    (FREE_LIMIT ≤ r.1, r.2)

/-- A JS number that is either a finite integer or `Infinity`, the
codomain of `getRemainingExports`. -/
inductive JsNum
  | val (n : ℤ)
  | infinity
deriving DecidableEq, Repr

/-- `getRemainingExports` from `freebie.ts`: paid users get `Infinity`;
otherwise `Math.max(0, FREE_LIMIT - count)`. -/
def getRemainingExports (s : Store) (currentMonth : String) : JsNum × Store :=
  if isPaidUser s then (.infinity, s)
  else
    let r := getUsageCount s currentMonth
    (.val (max 0 (FREE_LIMIT - r.1)), r.2)

/-- `incrementUsage` from `freebie.ts`: reads the count (with its
possible month-reset side effect) and writes back the successor. -/
def incrementUsage (s : Store) (currentMonth : String) : Store :=
  let r := getUsageCount s currentMonth
  { r.2 with uses := some (r.1 + 1) }

/-- The stored usage count is a genuine count: absent or non-negative. -/
def usesNonneg (s : Store) : Prop := 0 ≤ s.uses.getD 0

/-! ### Supporting lemmas -/

/-- The frame cache is consistent with the asset environment: every
cached entry is exactly what a fresh fetch of that path would decode.
This holds throughout a session because `deviceFrameCache` is only ever
written from successful loads. -/
def cacheOk (fetch : Fetch) (cache : Cache) : Prop :=
  ∀ p f, cache p = some f → fetch p = some f

theorem loadDeviceFrame_fst (fetch : Fetch) (cache : Cache) (p : String)
    (h : cacheOk fetch cache) :
    (loadDeviceFrame fetch cache p).1 = fetch p := by
  unfold loadDeviceFrame
  cases hc : cache p with
  | some f => simpa using (h p f hc).symm
  | none => cases hf : fetch p <;> simp [hf]

theorem loadDeviceFrame_cacheOk (fetch : Fetch) (cache : Cache) (p : String)
    (h : cacheOk fetch cache) :
    cacheOk fetch (loadDeviceFrame fetch cache p).2 := by
  unfold loadDeviceFrame
  cases hc : cache p with
  | some f => simpa using h
  | none =>
    cases hf : fetch p with
    | none => simpa using h
    | some f =>
      intro q g hq
      simp only at hq
      by_cases hqp : q = p
      · subst hqp
        rw [if_pos rfl] at hq
        cases hq
        exact hf
      · rw [if_neg hqp] at hq
        exact h q g hq

theorem applyTemplateCore_fst_congr (image : Size) (tpl : Template)
    (t : ImageTransform) (fetch : Fetch) (c1 c2 : Cache)
    (h1 : cacheOk fetch c1) (h2 : cacheOk fetch c2) :
    (applyTemplateCore image tpl t fetch c1).1 =
      (applyTemplateCore image tpl t fetch c2).1 := by
  cases tpl with
  | gradient colors angle => rfl
  | solid color => rfl
  | device d =>
    cases d with
    | phone o =>
      simp only [applyTemplateCore]
      rw [loadDeviceFrame_fst fetch c1 _ h1, loadDeviceFrame_fst fetch c2 _ h2]
      cases fetch iphoneFramePath <;> cases o <;> rfl
    | ipad =>
      simp only [applyTemplateCore]
      rw [loadDeviceFrame_fst fetch c1 _ h1, loadDeviceFrame_fst fetch c2 _ h2]
      cases fetch ipadFramePath <;> rfl
    | macbook => rfl
    | browser => rfl

theorem applyTemplateCore_cacheOk (image : Size) (tpl : Template)
    (t : ImageTransform) (fetch : Fetch) (cache : Cache)
    (h : cacheOk fetch cache) :
    cacheOk fetch (applyTemplateCore image tpl t fetch cache).2 := by
  cases tpl with
  | gradient colors angle => exact h
  | solid color => exact h
  | device d =>
    cases d with
    | phone o =>
      simp only [applyTemplateCore]
      cases hdf : (loadDeviceFrame fetch cache iphoneFramePath).1 <;> cases o <;>
        exact loadDeviceFrame_cacheOk fetch cache _ h
    | ipad =>
      simp only [applyTemplateCore]
      cases hdf : (loadDeviceFrame fetch cache ipadFramePath).1 <;>
        exact loadDeviceFrame_cacheOk fetch cache _ h
    | macbook => exact h
    | browser => exact h

/-! ### Claim theorems -/

/-- Claim C3: the landscape-phone screen-rectangle rotation formula
`x' = sy/fh·W, y' = (fw-sx-sw)/fw·H, w' = sh/fh·W, h' = sw/fw·H` composed
with its −90° inverse returns the original rectangle.  Over `ℚ` the
round trip is exact, so it holds within any rounding tolerance. -/
theorem rotate_roundTrip (r : Rect) (fw fh W H : ℚ)
    (hfw : fw ≠ 0) (hfh : fh ≠ 0) (hW : W ≠ 0) (hH : H ≠ 0) :
    rotateScreenRect90Inv (rotateScreenRect90 r ⟨fw, fh⟩ W H) ⟨W, H⟩ fw fh = r := by
  obtain ⟨a, b, c, d⟩ := r
  simp only [rotateScreenRect90, rotateScreenRect90Inv, Rect.mk.injEq]
  refine ⟨?_, ?_, ?_, ?_⟩ <;> field_simp <;> ring

/-- Witness for C3 at the concrete rectangle (3,4,5,6) in a 100×200
frame rotated onto a 50×25 canvas. -/
theorem rotate_roundTrip_witness :
    (100 : ℚ) ≠ 0 ∧ (200 : ℚ) ≠ 0 ∧ (50 : ℚ) ≠ 0 ∧ (25 : ℚ) ≠ 0 ∧
    rotateScreenRect90Inv (rotateScreenRect90 ⟨3, 4, 5, 6⟩ ⟨100, 200⟩ 50 25)
      ⟨50, 25⟩ 100 200 = ⟨3, 4, 5, 6⟩ :=
  ⟨by norm_num, by norm_num, by norm_num, by norm_num,
   rotate_roundTrip ⟨3, 4, 5, 6⟩ 100 200 50 25
     (by norm_num) (by norm_num) (by norm_num) (by norm_num)⟩

/-- Claim C4: with `transform.scale = 1` the base scale
`min(sw/iw, sh/ih)` never crops: the drawn rectangle's width and height
do not exceed the screen rectangle's, and with the offset at the origin
the drawn rectangle lies entirely inside the screen rectangle. -/
theorem baseScale_fit_no_crop (screen : Rect) (image : Size) (t : ImageTransform)
    (hiw : 0 < image.width) (hih : 0 < image.height)
    (hsw : 0 < screen.width) (hsh : 0 < screen.height)
    (hs : t.scale = 1) :
    (placeImage screen image t).width ≤ screen.width ∧
    (placeImage screen image t).height ≤ screen.height ∧
    (t.x = 0 → t.y = 0 →
      screen.x ≤ (placeImage screen image t).x ∧
      (placeImage screen image t).x + (placeImage screen image t).width ≤
        screen.x + screen.width ∧
      screen.y ≤ (placeImage screen image t).y ∧
      (placeImage screen image t).y + (placeImage screen image t).height ≤
        screen.y + screen.height) := by
  obtain ⟨sx, sy, sw, sh⟩ := screen
  obtain ⟨iw, ih⟩ := image
  obtain ⟨sc, tx, ty⟩ := t
  simp only at hiw hih hsw hsh hs
  subst hs
  have hw : iw * (min (sw / iw) (sh / ih) * 1) ≤ sw := by
    rw [mul_one]
    calc iw * min (sw / iw) (sh / ih) ≤ iw * (sw / iw) :=
          mul_le_mul_of_nonneg_left (min_le_left _ _) hiw.le
      _ = sw := by field_simp
  have hh : ih * (min (sw / iw) (sh / ih) * 1) ≤ sh := by
    rw [mul_one]
    calc ih * min (sw / iw) (sh / ih) ≤ ih * (sh / ih) :=
          mul_le_mul_of_nonneg_left (min_le_right _ _) hih.le
      _ = sh := by field_simp
  have hw0 : 0 ≤ iw * (min (sw / iw) (sh / ih) * 1) := by positivity
  have hh0 : 0 ≤ ih * (min (sw / iw) (sh / ih) * 1) := by positivity
  refine ⟨hw, hh, fun hx hy => ?_⟩
  subst hx
  subst hy
  simp only [placeImage]
  refine ⟨by linarith, by linarith, by linarith, by linarith⟩

/-- Witness for C4: a 100×100 image in the 380×780 fallback phone screen
at the identity transform. -/
theorem baseScale_fit_no_crop_witness :
    (0 : ℚ) < 100 ∧ (0 : ℚ) < 380 ∧ (0 : ℚ) < 780 ∧
    (placeImage ⟨150, 150, 380, 780⟩ ⟨100, 100⟩ ⟨1, 0, 0⟩).width ≤ 380 ∧
    (placeImage ⟨150, 150, 380, 780⟩ ⟨100, 100⟩ ⟨1, 0, 0⟩).height ≤ 780 :=
  ⟨by norm_num, by norm_num, by norm_num,
   (baseScale_fit_no_crop ⟨150, 150, 380, 780⟩ ⟨100, 100⟩ ⟨1, 0, 0⟩
      (by norm_num) (by norm_num) (by norm_num) (by norm_num) rfl).1,
   (baseScale_fit_no_crop ⟨150, 150, 380, 780⟩ ⟨100, 100⟩ ⟨1, 0, 0⟩
      (by norm_num) (by norm_num) (by norm_num) (by norm_num) rfl).2.1⟩

/-- Claim C5: watermark exclusivity.  An entitled user with blank custom
text gets no watermark operations at all; a non-entitled user always gets
the branding stamp first (bottom-right); and for a non-entitled user with
non-blank custom text the operations are exactly branding followed by the
custom stroke and fill (bottom-center). -/
theorem addWatermark_exclusivity (w h : ℚ) (t : String) :
    (jsTrim t = "" → addWatermark w h t true = []) ∧
    (addWatermark w h t false).head? = some (.branding (w - 30) (h - 30)) ∧
    (jsTrim t ≠ "" → addWatermark w h t false =
      [.branding (w - 30) (h - 30),
       .customStroke t (w / 2) (h - 30),
       .customFill t (w / 2) (h - 30)]) := by
  refine ⟨fun ht => ?_, ?_, fun ht => ?_⟩
  · simp [addWatermark, ht]
  · rfl
  · have hne : t ≠ "" := fun he => ht (by rw [he]; rfl)
    simp [addWatermark, hne, ht]

/-- Witness for C5 on an 800×600 canvas, with blank text for the
entitled case and the text "demo" for the non-entitled cases. -/
theorem addWatermark_exclusivity_witness :
    jsTrim "" = "" ∧ jsTrim "demo" ≠ "" ∧
    addWatermark 800 600 "" true = [] ∧
    (addWatermark 800 600 "demo" false).head? = some (.branding 770 570) ∧
    addWatermark 800 600 "demo" false =
      [.branding 770 570, .customStroke "demo" 400 570, .customFill "demo" 400 570] := by
  refine ⟨rfl, by decide, (addWatermark_exclusivity 800 600 "").1 rfl, ?_, ?_⟩
  · have h := (addWatermark_exclusivity 800 600 "demo").2.1
    norm_num at h ⊢
    exact h
  · have h := (addWatermark_exclusivity 800 600 "demo").2.2 (by decide)
    norm_num at h ⊢
    exact h

/-- Claim C7: the browser-window template always renders on a canvas of
exactly 1400×915 pixels (1200+2·100 wide, 675+40+2·100 tall), whatever
the input image's dimensions. -/
theorem browser_canvas_dims (image : Size) (wm : String) (t : ImageTransform)
    (paid : Bool) (fetch : Fetch) (cache : Cache) :
    ((applyTemplate image (.device .browser) wm t paid fetch cache).1).canvas =
      ⟨1400, 915⟩ := by
  show Size.mk (1200 + padding * 2) (675 + 40 + padding * 2) = ⟨1400, 915⟩
  norm_num [padding]

/-- Claim C6: when the frame asset cannot be fetched or decoded the
loader returns the `null` sentinel instead of raising, and the
phone/tablet branches still render using the hardcoded fallback screen
dimensions (380×780 portrait, 780×380 landscape, 1024×768 tablet) with a
procedurally drawn simplified frame. -/
theorem asset_failure_fallback (image : Size) (wm : String) (t : ImageTransform)
    (paid : Bool) (fetch : Fetch) (cache : Cache) (p : String)
    (hf : fetch p = none) (hc : cache p = none) :
    loadDeviceFrame fetch cache p = (none, cache) ∧
    ((applyTemplate image (.device (.phone .portrait)) wm t paid
        (fun _ => none) (fun _ => none)).1).realScreenDimensions = some ⟨380, 780⟩ ∧
    ((applyTemplate image (.device (.phone .landscape)) wm t paid
        (fun _ => none) (fun _ => none)).1).realScreenDimensions = some ⟨780, 380⟩ ∧
    ((applyTemplate image (.device .ipad) wm t paid
        (fun _ => none) (fun _ => none)).1).realScreenDimensions = some ⟨1024, 768⟩ ∧
    DrawOp.phoneFrame 340 540 380 780 .portrait ∈
      ((applyTemplate image (.device (.phone .portrait)) wm t paid
        (fun _ => none) (fun _ => none)).1).ops := by
  refine ⟨?_, rfl, rfl, rfl, ?_⟩
  · simp [loadDeviceFrame, hc, hf]
  · show DrawOp.phoneFrame 340 540 380 780 .portrait ∈
      [DrawOp.background .deviceDefault ((380 : ℚ) + padding * 2 + 100)
          ((780 : ℚ) + padding * 2 + 100),
        .phoneFrame (((380 : ℚ) + padding * 2 + 100) / 2)
          (((780 : ℚ) + padding * 2 + 100) / 2) 380 780 .portrait,
        .screenImage ⟨((380 : ℚ) + padding * 2 + 100) / 2 - 380 / 2,
          ((780 : ℚ) + padding * 2 + 100) / 2 - 780 / 2, 380, 780⟩ 37 "#ffffff"
          (placeImage ⟨((380 : ℚ) + padding * 2 + 100) / 2 - 380 / 2,
            ((780 : ℚ) + padding * 2 + 100) / 2 - 780 / 2, 380, 780⟩ image t)] ++ _
    refine List.mem_append_left _ ?_
    have h2 : (((380 : ℚ) + padding * 2 + 100) / 2) = 340 := by norm_num [padding]
    have h3 : (((780 : ℚ) + padding * 2 + 100) / 2) = 540 := by norm_num [padding]
    rw [h2, h3]
    exact List.mem_cons_of_mem _ (List.mem_cons_self _ _)

/-- Witness for C6: an environment where every fetch fails and an empty
cache; the loader returns the sentinel for the phone asset path. -/
theorem asset_failure_fallback_witness :
    loadDeviceFrame (fun _ => none) (fun _ => none) iphoneFramePath =
      (none, fun _ => none) ∧
    ((applyTemplate ⟨1000, 2000⟩ (.device (.phone .portrait)) "" ⟨1, 0, 0⟩ false
        (fun _ => none) (fun _ => none)).1).realScreenDimensions = some ⟨380, 780⟩ :=
  ⟨(asset_failure_fallback ⟨1000, 2000⟩ "" ⟨1, 0, 0⟩ false
      (fun _ => none) (fun _ => none) iphoneFramePath rfl rfl).1,
   (asset_failure_fallback ⟨1000, 2000⟩ "" ⟨1, 0, 0⟩ false
      (fun _ => none) (fun _ => none) iphoneFramePath rfl rfl).2.1⟩

/-- Claim C8: the composite is deterministic.  For a fixed input tuple
and a fixed asset environment, re-running the full composite — with the
frame cache threaded through from the first run, as `deviceFrameCache`
persists between renders — produces exactly the same output. -/
theorem applyTemplate_deterministic (image : Size) (tpl : Template)
    (wm : String) (t : ImageTransform) (paid : Bool) (fetch : Fetch)
    (cache : Cache) (h : cacheOk fetch cache) :
    (applyTemplate image tpl wm t paid fetch
        ((applyTemplate image tpl wm t paid fetch cache).2)).1 =
      (applyTemplate image tpl wm t paid fetch cache).1 := by
  have h2 : (applyTemplate image tpl wm t paid fetch cache).2 =
      (applyTemplateCore image tpl t fetch cache).2 := rfl
  have hcore : (applyTemplateCore image tpl t fetch
      ((applyTemplateCore image tpl t fetch cache).2)).1 =
        (applyTemplateCore image tpl t fetch cache).1 :=
    applyTemplateCore_fst_congr image tpl t fetch _ _
      (applyTemplateCore_cacheOk image tpl t fetch cache h) h
  simp only [applyTemplate, h2, hcore]

/-- Witness for C8: the empty cache is trivially consistent with the
all-failing environment, and the two runs agree there. -/
theorem applyTemplate_deterministic_witness :
    cacheOk (fun _ => none) (fun _ => none) ∧
    (applyTemplate ⟨100, 100⟩ (.device (.phone .portrait)) "" ⟨1, 0, 0⟩ false
        (fun _ => none)
        ((applyTemplate ⟨100, 100⟩ (.device (.phone .portrait)) "" ⟨1, 0, 0⟩ false
          (fun _ => none) (fun _ => none)).2)).1 =
      (applyTemplate ⟨100, 100⟩ (.device (.phone .portrait)) "" ⟨1, 0, 0⟩ false
        (fun _ => none) (fun _ => none)).1 :=
  ⟨fun _ _ hpf => Option.noConfusion hpf,
   applyTemplate_deterministic ⟨100, 100⟩ (.device (.phone .portrait)) "" ⟨1, 0, 0⟩
     false (fun _ => none) (fun _ => none) (fun _ _ hpf => Option.noConfusion hpf)⟩

/-- Claim C9: a paid user is never quota-limited: whatever the stored
usage count, `hasHitFreeLimit` returns `false` and
`getRemainingExports` returns `Infinity`. -/
theorem paid_user_quota_not_enforced (s : Store) (month : String)
    (h : isPaidUser s = true) :
    (hasHitFreeLimit s month).1 = false ∧
    (getRemainingExports s month).1 = JsNum.infinity := by
  constructor <;> simp [hasHitFreeLimit, getRemainingExports, h]

/-- Witness for C9: a paid store whose stored count (5) is above the
free limit of 3. -/
theorem paid_user_quota_not_enforced_witness :
    isPaidUser ⟨some 5, some "2025-10", some "true", none⟩ = true ∧
    (hasHitFreeLimit ⟨some 5, some "2025-10", some "true", none⟩ "2025-10").1 = false ∧
    (getRemainingExports ⟨some 5, some "2025-10", some "true", none⟩ "2025-10").1 =
      JsNum.infinity :=
  ⟨by decide,
   (paid_user_quota_not_enforced ⟨some 5, some "2025-10", some "true", none⟩
      "2025-10" (by decide)).1,
   (paid_user_quota_not_enforced ⟨some 5, some "2025-10", some "true", none⟩
      "2025-10" (by decide)).2⟩

/-- Claim C10: `getUsageCount` is not read-only.  On a month mismatch it
writes the current month and a zero count and returns 0; on a match it
returns the stored count and leaves the whole store unchanged; and
whenever the stored value is a genuine count the returned count is
non-negative. -/
theorem getUsageCount_reset_and_frame (s : Store) (month : String) :
    (s.resetDate ≠ some month →
      getUsageCount s month = (0, { s with resetDate := some month, uses := some 0 })) ∧
    (s.resetDate = some month → getUsageCount s month = (s.uses.getD 0, s)) ∧
    (usesNonneg s → 0 ≤ (getUsageCount s month).1) := by
  refine ⟨fun hne => ?_, fun he => ?_, fun hn => ?_⟩
  · simp [getUsageCount, hne]
  · simp [getUsageCount, he]
  · unfold getUsageCount
    split
    · norm_num
    · simpa [usesNonneg] using hn

/-- Witness for C10: a store from September read in October resets and
returns 0; a store already in October is returned untouched with its
count 2, which is non-negative. -/
theorem getUsageCount_reset_and_frame_witness :
    getUsageCount ⟨some 2, some "2025-09", none, none⟩ "2025-10" =
      (0, ⟨some 0, some "2025-10", none, none⟩) ∧
    getUsageCount ⟨some 2, some "2025-10", none, none⟩ "2025-10" =
      (2, ⟨some 2, some "2025-10", none, none⟩) ∧
    0 ≤ (getUsageCount ⟨some 2, some "2025-10", none, none⟩ "2025-10").1 :=
  ⟨(getUsageCount_reset_and_frame ⟨some 2, some "2025-09", none, none⟩ "2025-10").1
      (by decide),
   (getUsageCount_reset_and_frame ⟨some 2, some "2025-10", none, none⟩ "2025-10").2.1
      (by decide),
   (getUsageCount_reset_and_frame ⟨some 2, some "2025-10", none, none⟩ "2025-10").2.2
      (by norm_num [usesNonneg])⟩

/-- Claim C1 (code evidence): the "Fill All" handler applies
`transform.scale = 1`, which against the fit base scale does NOT cover
the screen.  At a 100×100 image in the 380×780 fallback portrait phone
screen the drawn rectangle is 380×380: its height 380 is strictly below
the screen height 780, so the cover invariant fails. -/
theorem fillAll_gap_at_failing_input :
    handleFillScreenTransform = ⟨1, 0, 0⟩ ∧
    ((applyTemplate ⟨100, 100⟩ (.device (.phone .portrait)) ""
        handleFillScreenTransform false (fun _ => none) (fun _ => none)).1
      ).realScreenDimensions = some ⟨380, 780⟩ ∧
    (placeImage ⟨150, 150, 380, 780⟩ ⟨100, 100⟩ handleFillScreenTransform).height = 380 ∧
    (placeImage ⟨150, 150, 380, 780⟩ ⟨100, 100⟩ handleFillScreenTransform).height < 780 := by
  have he : (placeImage ⟨150, 150, 380, 780⟩ ⟨100, 100⟩ handleFillScreenTransform).height
      = 380 := by
    simp only [placeImage, handleFillScreenTransform]
    norm_num [min_def]
  exact ⟨rfl, rfl, he, by rw [he]; norm_num⟩

/-- Claim C2 (code evidence): the "Fill Horizontal" handler divides the
width scale by the COVER scale instead of the base (fit) scale.  For a
100×200 image in the 380×780 fallback portrait phone screen it sets
`transform.scale = 38/39`, and the drawn width is 14440/39 ≈ 370.26,
not the screen width 380. -/
theorem fillHorizontal_width_mismatch_at_failing_input :
    (handleFillHorizontalTransform ⟨380, 780⟩ ⟨100, 200⟩).scale = 38 / 39 ∧
    (placeImage ⟨150, 150, 380, 780⟩ ⟨100, 200⟩
        (handleFillHorizontalTransform ⟨380, 780⟩ ⟨100, 200⟩)).width = 14440 / 39 ∧
    (placeImage ⟨150, 150, 380, 780⟩ ⟨100, 200⟩
        (handleFillHorizontalTransform ⟨380, 780⟩ ⟨100, 200⟩)).width ≠ 380 := by
  have hs : (handleFillHorizontalTransform ⟨380, 780⟩ ⟨100, 200⟩).scale = 38 / 39 := by
    simp only [handleFillHorizontalTransform]
    norm_num [max_def]
  have hw : (placeImage ⟨150, 150, 380, 780⟩ ⟨100, 200⟩
      (handleFillHorizontalTransform ⟨380, 780⟩ ⟨100, 200⟩)).width = 14440 / 39 := by
    simp only [placeImage, handleFillHorizontalTransform]
    norm_num [min_def, max_def]
  exact ⟨hs, hw, by rw [hw]; norm_num⟩

end ScreenClip

